import Mathlib

/-
Verification development for the HC-SR04 ultrasonic driver
(Esercizio3/hcsr04_polling.{hpp,cpp} and Esercizio3bis/hcsr04.{hpp},
hcsr04_interrupt.{hpp,cpp}).

Shallow embedding conventions:
- unsigned long (32-bit on the target) clock values are Nat; wraparound
  subtraction now - last on unsigned long is modelled by ulSub, explicit
  arithmetic mod 2^32;
- float is modelled by the rationals; the source constant 0.0343F becomes
  343/10000, the bounds 0.02F and 0.06F become 2/100 and 6/100;
- the out-parameter float and out_cm of read() is modelled as an Option:
  some d exactly when the source wrote the reference;
- micros() is modelled by explicit clock arguments; inside one polling
  read() the clock advances by one microsecond per micros() call, so the
  busy-wait loops visit successive clock values, and the clock does not
  wrap within a single read window (wraparound is modelled where the code
  relies on it, in canStartShot_).
-/

namespace HCSR04

/-- Modulus of the unsigned long microsecond clock (32-bit on Arduino UNO). -/
def UL_MOD : Nat := 2 ^ 32

/-- Wraparound-safe unsigned subtraction a - b on the cyclic clock,
mirroring unsigned long subtraction in the source. -/
def ulSub (a b : Nat) : Nat := (a + UL_MOD - b % UL_MOD) % UL_MOD

/-- Speed of sound in cm per microsecond, source constant HCSR04_CM_PER_US
(0.0343F). -/
def HCSR04_CM_PER_US : ℚ := 343 / 10000

/-- Source constant HCSR04_DEFAULT_TIMEOUT_US (30000UL). -/
def HCSR04_DEFAULT_TIMEOUT_US : Nat := 30000

/-- Source constant HCSR04_TRIG_PULSE_US (10U). -/
def HCSR04_TRIG_PULSE_US : Nat := 10

/-- Source constant HCSR04_DEFAULT_MIN_CYCLE_US (60000UL). -/
def HCSR04_DEFAULT_MIN_CYCLE_US : Nat := 60000

/-- Status codes of the driver, the HCSR04_Status enum of hcsr04.hpp. -/
inductive HCSR04_Status where
  | ok
  | errTimeoutTrig
  | errTimeoutEchoStart
  | errTimeoutEchoEnd
  | errBusy
  | errNotReady
  | errBadState
  | errBadParam
deriving DecidableEq, Repr

/-- Data members of the abstract base class IHCSR04. -/
structure IHCSR04_State where
  m_trig_pin : Nat
  m_echo_pin : Nat
  m_timeout_us : Nat
  m_cm_per_us : ℚ
  m_min_cycle_us : Nat
  m_last_shot_us : Nat
deriving DecidableEq, Repr

/-- The IHCSR04 constructor: stores the arguments unchecked and initialises
m_last_shot_us to 0UL. -/
def IHCSR04_init (trig_pin echo_pin : Nat) (timeout_us : Nat) (cm_per_us : ℚ)
    (min_cycle_us : Nat) : IHCSR04_State :=
  { m_trig_pin := trig_pin
    m_echo_pin := echo_pin
    m_timeout_us := timeout_us
    m_cm_per_us := cm_per_us
    m_min_cycle_us := min_cycle_us
    m_last_shot_us := 0 }

/-- IHCSR04::setTrigPin: commits when the candidate differs from the current
echo pin, otherwise keeps state and reports errBadParam. -/
def setTrigPin (s : IHCSR04_State) (trig_pin : Nat) : HCSR04_Status × IHCSR04_State :=
  if trig_pin ≠ s.m_echo_pin then
    (HCSR04_Status.ok, { s with m_trig_pin := trig_pin })
  else
    (HCSR04_Status.errBadParam, s)

/-- IHCSR04::setEchoPin: commits when the candidate differs from the current
trig pin, otherwise keeps state and reports errBadParam. -/
def setEchoPin (s : IHCSR04_State) (echo_pin : Nat) : HCSR04_Status × IHCSR04_State :=
  if echo_pin ≠ s.m_trig_pin then
    (HCSR04_Status.ok, { s with m_echo_pin := echo_pin })
  else
    (HCSR04_Status.errBadParam, s)

/-- IHCSR04::setTimeoutUs: commits when timeout_us is at least
HCSR04_TRIG_PULSE_US + 100. -/
def setTimeoutUs (s : IHCSR04_State) (timeout_us : Nat) : HCSR04_Status × IHCSR04_State :=
  if HCSR04_TRIG_PULSE_US + 100 ≤ timeout_us then
    (HCSR04_Status.ok, { s with m_timeout_us := timeout_us })
  else
    (HCSR04_Status.errBadParam, s)

/-- IHCSR04::setMinCycleUs: commits when min_cycle_us is nonzero. -/
def setMinCycleUs (s : IHCSR04_State) (min_cycle_us : Nat) : HCSR04_Status × IHCSR04_State :=
  if min_cycle_us ≠ 0 then
    (HCSR04_Status.ok, { s with m_min_cycle_us := min_cycle_us })
  else
    (HCSR04_Status.errBadParam, s)

/-- IHCSR04::setSoundSpeed: commits when cm_per_us lies strictly between
0.02 and 0.06 cm per microsecond. -/
def setSoundSpeed (s : IHCSR04_State) (cm_per_us : ℚ) : HCSR04_Status × IHCSR04_State :=
  if 2 / 100 < cm_per_us ∧ cm_per_us < 6 / 100 then
    (HCSR04_Status.ok, { s with m_cm_per_us := cm_per_us })
  else
    (HCSR04_Status.errBadParam, s)

/-- IHCSR04::canStartShot_: elapsed = now - m_last_shot_us with unsigned
wraparound; ok when elapsed is at least m_min_cycle_us, errBusy otherwise.
The micros() sample taken inside the source function is the argument now_us. -/
def canStartShot_ (s : IHCSR04_State) (now_us : Nat) : HCSR04_Status :=
  if s.m_min_cycle_us ≤ ulSub now_us s.m_last_shot_us then
    HCSR04_Status.ok
  else
    HCSR04_Status.errBusy

/-- IHCSR04::markShotStart_: records the current micros() value as the new
last-shot timestamp. -/
def markShotStart_ (s : IHCSR04_State) (now_us : Nat) : IHCSR04_State :=
  { s with m_last_shot_us := now_us }

/-- IHCSR04::timeUsToCm_: rejects a zero high time with errBadParam and no
output; otherwise writes float(echo_high_us) * m_cm_per_us * 0.5F and
reports ok. -/
def timeUsToCm_ (s : IHCSR04_State) (echo_high_us : Nat) : HCSR04_Status × Option ℚ :=
  if echo_high_us ≠ 0 then
    (HCSR04_Status.ok, some ((echo_high_us : ℚ) * s.m_cm_per_us * (1 / 2)))
  else
    (HCSR04_Status.errBadParam, none)

/-- One busy-wait loop of HCSR04_Polling::read. State variables are the
current micros() sample now and the found-timestamp accumulator tfound,
initialised to the sentinel 0UL by the caller. The loop runs while
(now - tstart) < timeout and tfound == 0; in each iteration digitalRead is
sampled at clock value now (echo now = want detects the awaited level) and,
on a hit, tfound is set to now; the trailing now = micros() call advances
the clock by one. Returns the pair (tfound, now) at loop exit. -/
def waitEdge (echo : Nat → Bool) (want : Bool) (tstart timeout now tfound : Nat) :
    Nat × Nat :=
  if h : now - tstart < timeout ∧ tfound = 0 then
    waitEdge echo want tstart timeout (now + 1) (if echo now = want then now else tfound)
  else
    (tfound, now)
termination_by tstart + timeout - now
decreasing_by
  simp_wf
  omega

/-- Result of one HCSR04_Polling::read call: status, the updated data
members, the out_cm reference (some exactly when written), and whether the
TRIG pulse sequence was driven. -/
structure PollResult where
  status : HCSR04_Status
  state : IHCSR04_State
  out : Option ℚ
  trigFired : Bool
deriving DecidableEq, Repr

/-- The measurement phase of HCSR04_Polling::read after the TRIG pulse:
tstart is the micros() reference captured when TRIG falls; the first loop
awaits a high echo level, the second loop awaits a low echo level against
the same window (now - tstart) < timeout; the fresh now = micros() sample
between the loops advances the clock past the exit value of the first
loop. -/
def pollingMeasure (s1 : IHCSR04_State) (tstart : Nat) (echo : Nat → Bool) : PollResult :=
  let r1 := waitEdge echo true tstart s1.m_timeout_us (tstart + 1) 0
  if r1.1 = 0 then
    ⟨HCSR04_Status.errTimeoutEchoStart, s1, none, true⟩
  else
    let r2 := waitEdge echo false tstart s1.m_timeout_us (r1.2 + 1) 0
    if r2.1 = 0 then
      ⟨HCSR04_Status.errTimeoutEchoEnd, s1, none, true⟩
    else
      ⟨(timeUsToCm_ s1 (r2.1 - r1.1)).1, s1, (timeUsToCm_ s1 (r2.1 - r1.1)).2, true⟩

/-- HCSR04_Polling::read: status starts at errBadState; when canStartShot_
grants, the shot is marked, the TRIG pulse driven, and the measurement
phase runs; otherwise the initial errBadState is returned with no state
change and no trigger activity. nowE is the micros() sample seen by
canStartShot_ and markShotStart_; tstart the reference captured after the
trigger falls. -/
def pollingRead (s : IHCSR04_State) (nowE tstart : Nat) (echo : Nat → Bool) : PollResult :=
  if canStartShot_ s nowE = HCSR04_Status.ok then
    pollingMeasure (markShotStart_ s nowE) tstart echo
  else
    ⟨HCSR04_Status.errBadState, s, none, false⟩

/-- State of one HCSR04_Interrupt instance: the base-class data members
plus the static edge-capture variables s_waiting_rise, s_rise_us,
s_fall_us. -/
structure InterruptState where
  base : IHCSR04_State
  s_waiting_rise : Bool
  s_rise_us : Nat
  s_fall_us : Nat
deriving DecidableEq, Repr

/-- Result of one HCSR04_Interrupt::read call. -/
structure IntResult where
  status : HCSR04_Status
  state : InterruptState
  out : Option ℚ
  trigFired : Bool
deriving DecidableEq, Repr

/-- The arming step of HCSR04_Interrupt::read: when canStartShot_ grants,
marks the shot, resets the ISR state to awaiting-rise with cleared
timestamps, and drives the TRIG pulse (second component true); otherwise
leaves everything untouched. -/
def armShot (st : InterruptState) (now : Nat) : InterruptState × Bool :=
  if canStartShot_ st.base now = HCSR04_Status.ok then
    (⟨markShotStart_ st.base now, true, 0, 0⟩, true)
  else
    (st, false)

/-- The harvest step of HCSR04_Interrupt::read: when both edge timestamps
are populated, converts the wrapped difference to centimeters, writes
out_cm on ok, and clears both timestamps; otherwise reports errNotReady. -/
def harvest (p : InterruptState × Bool) : IntResult :=
  if p.1.s_rise_us ≠ 0 ∧ p.1.s_fall_us ≠ 0 then
    ⟨(timeUsToCm_ p.1.base (ulSub p.1.s_fall_us p.1.s_rise_us)).1,
     { p.1 with s_rise_us := 0, s_fall_us := 0 },
     (timeUsToCm_ p.1.base (ulSub p.1.s_fall_us p.1.s_rise_us)).2,
     p.2⟩
  else
    ⟨HCSR04_Status.errNotReady, p.1, none, p.2⟩

/-- HCSR04_Interrupt::read: the arming step followed unconditionally by the
harvest step; the status of the arming guard is always overwritten by the
harvest outcome. -/
def interruptRead (st : InterruptState) (now : Nat) : IntResult :=
  harvest (armShot st now)

/-- HCSR04_Interrupt::echoChangeISR_: on a level change, records the rise
timestamp when awaiting a rise and the level is high, the fall timestamp
when awaiting a fall and the level is low; any other combination is
ignored. -/
def echoChangeISR_ (st : InterruptState) (level : Bool) (now : Nat) : InterruptState :=
  if st.s_waiting_rise then
    if level then { st with s_rise_us := now, s_waiting_rise := false } else st
  else
    if !level then { st with s_fall_us := now, s_waiting_rise := true } else st

/-- A one-step transition of the shared configuration state: any setter,
a shot-start mark, or a full read of either engine. -/
inductive Step : IHCSR04_State → IHCSR04_State → Prop where
  | setTrig (s : IHCSR04_State) (p : Nat) : Step s (setTrigPin s p).2
  | setEcho (s : IHCSR04_State) (p : Nat) : Step s (setEchoPin s p).2
  | setTimeout (s : IHCSR04_State) (v : Nat) : Step s (setTimeoutUs s v).2
  | setMinCycle (s : IHCSR04_State) (v : Nat) : Step s (setMinCycleUs s v).2
  | setSpeed (s : IHCSR04_State) (q : ℚ) : Step s (setSoundSpeed s q).2
  | mark (s : IHCSR04_State) (now : Nat) : Step s (markShotStart_ s now)
  | pollRead (s : IHCSR04_State) (nowE tstart : Nat) (echo : Nat → Bool) :
      Step s (pollingRead s nowE tstart echo).state
  | intRead (s : IHCSR04_State) (w : Bool) (r f now : Nat) :
      Step s (interruptRead ⟨s, w, r, f⟩ now).state.base

/- Concrete example states for witnesses and counterexamples. -/

/-- Example base state: pins 9 and 8, default timeout, speed and minimum
cycle, freshly constructed. -/
def pollEx : IHCSR04_State :=
  IHCSR04_init 9 8 HCSR04_DEFAULT_TIMEOUT_US HCSR04_CM_PER_US HCSR04_DEFAULT_MIN_CYCLE_US

/-- Interrupt state right after begin(): awaiting rise, no timestamps. -/
def intArmed : InterruptState := ⟨pollEx, true, 0, 0⟩

/-- Interrupt state reached from intArmed when the ISR fires a rise and a
fall at the same clock reading 5 (the monotonic clock may repeat a value). -/
def intEx : InterruptState := echoChangeISR_ (echoChangeISR_ intArmed true 5) false 5

/-- Interrupt state with an ordinary completed capture: rise at 11, fall
at 211. -/
def intExW : InterruptState := ⟨pollEx, true, 11, 211⟩

/-- Interrupt state with a degenerate completed capture at clock 7. -/
def intEx7 : InterruptState := ⟨pollEx, true, 7, 7⟩

/-- Interrupt state with an ordinary completed capture: rise at 5, fall
at 105. -/
def intEx5 : InterruptState := ⟨pollEx, true, 5, 105⟩

/- ============================ Helper lemmas ============================ -/

theorem ulSub_self (a : Nat) (h : a < UL_MOD) : ulSub a a = 0 := by
  unfold ulSub
  rw [Nat.mod_eq_of_lt h]
  rw [show a + UL_MOD - a = UL_MOD by omega]
  exact Nat.mod_self _

theorem ulSub_add (last d : Nat) (h1 : last < UL_MOD) (h2 : d < UL_MOD) :
    ulSub ((last + d) % UL_MOD) last = d := by
  unfold ulSub
  rw [Nat.mod_eq_of_lt h1]
  rcases Nat.lt_or_ge (last + d) UL_MOD with h | h
  · rw [Nat.mod_eq_of_lt h]
    rw [show last + d + UL_MOD - last = d + UL_MOD by omega]
    rw [Nat.add_mod_right, Nat.mod_eq_of_lt h2]
  · have hlt : last + d - UL_MOD < UL_MOD := by
      have : 0 < UL_MOD := by unfold UL_MOD; positivity
      omega
    rw [Nat.mod_eq_sub_mod h, Nat.mod_eq_of_lt hlt]
    rw [show last + d - UL_MOD + UL_MOD - last = d by omega]
    rw [Nat.mod_eq_of_lt h2]

theorem timeUsToCm_status_cases (s : IHCSR04_State) (u : Nat) :
    (timeUsToCm_ s u).1 = HCSR04_Status.ok ∨
    (timeUsToCm_ s u).1 = HCSR04_Status.errBadParam := by
  unfold timeUsToCm_
  split <;> simp

theorem timeUsToCm_out_iff (s : IHCSR04_State) (u : Nat) :
    (timeUsToCm_ s u).2 ≠ none ↔ (timeUsToCm_ s u).1 = HCSR04_Status.ok := by
  unfold timeUsToCm_
  split <;> simp

theorem armShot_preserves (st : InterruptState) (now : Nat) :
    (armShot st now).1 = st ∨
    (armShot st now).1 = ⟨markShotStart_ st.base now, true, 0, 0⟩ := by
  unfold armShot
  split
  · right; rfl
  · left; rfl

theorem interruptRead_notReady_of_no_capture (st : InterruptState) (now : Nat)
    (h : st.s_rise_us = 0) :
    (interruptRead st now).status = HCSR04_Status.errNotReady := by
  unfold interruptRead harvest
  rcases armShot_preserves st now with hc | hc <;> rw [hc] <;> simp [h]

theorem pollingRead_pins (s : IHCSR04_State) (nowE tstart : Nat) (echo : Nat → Bool) :
    (pollingRead s nowE tstart echo).state.m_trig_pin = s.m_trig_pin ∧
    (pollingRead s nowE tstart echo).state.m_echo_pin = s.m_echo_pin := by
  simp only [pollingRead, pollingMeasure]
  split
  · split
    · simp [markShotStart_]
    · split <;> simp [markShotStart_]
  · simp

theorem interruptRead_base_eq (st : InterruptState) (now : Nat) :
    (interruptRead st now).state.base = (armShot st now).1.base := by
  unfold interruptRead harvest
  split <;> rfl

theorem step_preserves_pins (s s' : IHCSR04_State)
    (h : s.m_trig_pin ≠ s.m_echo_pin) (hs : Step s s') :
    s'.m_trig_pin ≠ s'.m_echo_pin := by
  cases hs with
  | setTrig p =>
    unfold setTrigPin
    split
    next hp => simpa using hp
    next hp => simpa using h
  | setEcho p =>
    unfold setEchoPin
    split
    next hp => simpa using fun hx => hp hx.symm
    next hp => simpa using h
  | setTimeout v =>
    unfold setTimeoutUs
    split <;> simpa using h
  | setMinCycle v =>
    unfold setMinCycleUs
    split <;> simpa using h
  | setSpeed q =>
    unfold setSoundSpeed
    split <;> simpa using h
  | mark now =>
    simpa [markShotStart_] using h
  | pollRead nowE tstart echo =>
    have h2 := pollingRead_pins s nowE tstart echo
    rw [h2.1, h2.2]
    exact h
  | intRead w r f now =>
    rw [interruptRead_base_eq]
    rcases armShot_preserves ⟨s, w, r, f⟩ now with hc | hc <;> rw [hc]
    · exact h
    · simpa [markShotStart_] using h

/-- Dichotomy for one busy-wait loop started at clock now with a cleared
sentinel: either the awaited level is never sampled inside the window and
the found-timestamp stays 0, or there is a first sample time t inside the
window at which the level matches, and the loop exits with (t, t + 1). -/
theorem waitEdge_spec_fuel (echo : Nat → Bool) (want : Bool) (tstart timeout : Nat) :
    ∀ fuel now : Nat, tstart + timeout - now ≤ fuel → tstart < now →
      ((∀ t, now ≤ t → t < tstart + timeout → echo t ≠ want) ∧
        (waitEdge echo want tstart timeout now 0).1 = 0) ∨
      (∃ t, now ≤ t ∧ t < tstart + timeout ∧ echo t = want ∧
        (∀ u, now ≤ u → u < t → echo u ≠ want) ∧
        waitEdge echo want tstart timeout now 0 = (t, t + 1)) := by
  intro fuel
  induction fuel with
  | zero =>
    intro now hf hlt
    left
    constructor
    · intro t ht1 ht2
      omega
    · rw [waitEdge, dif_neg (by omega)]
  | succ n ih =>
    intro now hf hlt
    rw [waitEdge]
    by_cases hc : now - tstart < timeout ∧ (0 : Nat) = 0
    · rw [dif_pos hc]
      by_cases he : echo now = want
      · rw [if_pos he]
        right
        refine ⟨now, Nat.le_refl now, by omega, he, ?_, ?_⟩
        · intro u hu1 hu2
          omega
        · rw [waitEdge, dif_neg (by omega)]
      · rw [if_neg he]
        rcases ih (now + 1) (by omega) (by omega) with
          ⟨hall, h0⟩ | ⟨t, ht1, ht2, htw, htmin, heq⟩
        · left
          refine ⟨?_, h0⟩
          intro t ht1 ht2
          rcases Nat.eq_or_lt_of_le ht1 with hcase | hcase
          · rw [← hcase]
            exact he
          · exact hall t hcase ht2
        · right
          refine ⟨t, by omega, ht2, htw, ?_, heq⟩
          intro u hu1 hu2
          rcases Nat.eq_or_lt_of_le hu1 with hcase | hcase
          · rw [← hcase]
            exact he
          · exact htmin u hcase hu2
    · rw [dif_neg hc]
      left
      constructor
      · intro t ht1 ht2
        omega
      · rfl

theorem waitEdge_characterize (echo : Nat → Bool) (want : Bool)
    (tstart timeout now : Nat) (hlt : tstart < now) :
    ((∀ t, now ≤ t → t < tstart + timeout → echo t ≠ want) ∧
      (waitEdge echo want tstart timeout now 0).1 = 0) ∨
    (∃ t, now ≤ t ∧ t < tstart + timeout ∧ echo t = want ∧
      (∀ u, now ≤ u → u < t → echo u ≠ want) ∧
      waitEdge echo want tstart timeout now 0 = (t, t + 1)) :=
  waitEdge_spec_fuel echo want tstart timeout (tstart + timeout - now) now
    (Nat.le_refl _) hlt

/-- Characterization of the post-trigger measurement phase of
HCSR04_Polling::read: errTimeoutEchoStart exactly when no sample inside the
window (tstart, tstart + timeout) reads high; errTimeoutEchoEnd exactly
when there is a first high sample at tr inside the window and every later
sample of the fall-wait loop, which resumes at tr + 2, up to the end of the
same window still reads high. -/
theorem pollingMeasure_window (s1 : IHCSR04_State) (tstart : Nat) (echo : Nat → Bool) :
    ((pollingMeasure s1 tstart echo).status = HCSR04_Status.errTimeoutEchoStart ↔
      ∀ t, tstart < t → t < tstart + s1.m_timeout_us → echo t = false) ∧
    ((pollingMeasure s1 tstart echo).status = HCSR04_Status.errTimeoutEchoEnd ↔
      ∃ tr, tstart < tr ∧ tr < tstart + s1.m_timeout_us ∧ echo tr = true ∧
        (∀ u, tstart < u → u < tr → echo u = false) ∧
        (∀ t, tr + 2 ≤ t → t < tstart + s1.m_timeout_us → echo t = true)) := by
  rcases waitEdge_characterize echo true tstart s1.m_timeout_us (tstart + 1) (by omega) with
    ⟨hall, h0⟩ | ⟨tr, htr1, htr2, htrw, htrmin, heq1⟩
  · have hm : pollingMeasure s1 tstart echo =
        ⟨HCSR04_Status.errTimeoutEchoStart, s1, none, true⟩ := by
      simp only [pollingMeasure]
      rw [h0, if_pos rfl]
    have hstat : (pollingMeasure s1 tstart echo).status =
        HCSR04_Status.errTimeoutEchoStart := by
      rw [hm]
    rw [hstat]
    refine ⟨⟨fun _ => ?_, fun _ => rfl⟩,
      ⟨fun hco => absurd hco (by decide), fun hex => ?_⟩⟩
    · intro t ht1 ht2
      have h := hall t (by omega) ht2
      simpa using h
    · obtain ⟨tr, hb1, hb2, hb3, _, _⟩ := hex
      have h := hall tr (by omega) hb2
      exact absurd hb3 h
  · have htrne : tr ≠ 0 := by omega
    have h1eq : (waitEdge echo true tstart s1.m_timeout_us (tstart + 1) 0).1 = tr := by
      rw [heq1]
    have h2eq : (waitEdge echo true tstart s1.m_timeout_us (tstart + 1) 0).2 = tr + 1 := by
      rw [heq1]
    have hplus : tr + 1 + 1 = tr + 2 := by omega
    rcases waitEdge_characterize echo false tstart s1.m_timeout_us (tr + 2) (by omega) with
      ⟨hall2, h02⟩ | ⟨tf, htf1, htf2, htfw, htfmin, heq2⟩
    · have hm : pollingMeasure s1 tstart echo =
          ⟨HCSR04_Status.errTimeoutEchoEnd, s1, none, true⟩ := by
        simp only [pollingMeasure, h1eq, h2eq, hplus]
        rw [if_neg htrne, h02, if_pos rfl]
      have hstat : (pollingMeasure s1 tstart echo).status =
          HCSR04_Status.errTimeoutEchoEnd := by
        rw [hm]
      rw [hstat]
      refine ⟨⟨fun hco => absurd hco (by decide), fun hforall => ?_⟩,
        ⟨fun _ => ?_, fun _ => rfl⟩⟩
      · have h := hforall tr (by omega) htr2
        rw [htrw] at h
        exact absurd h (by decide)
      · refine ⟨tr, by omega, htr2, htrw, ?_, ?_⟩
        · intro u hu1 hu2
          have h := htrmin u (by omega) hu2
          simpa using h
        · intro t ht1 ht2
          have h := hall2 t ht1 ht2
          simpa using h
    · have htfne : tf ≠ 0 := by omega
      have hm : pollingMeasure s1 tstart echo =
          ⟨(timeUsToCm_ s1 (tf - tr)).1, s1, (timeUsToCm_ s1 (tf - tr)).2, true⟩ := by
        simp only [pollingMeasure, h1eq, h2eq, hplus]
        rw [if_neg htrne, heq2, if_neg (by simpa using htfne)]
      have hsok : (timeUsToCm_ s1 (tf - tr)).1 = HCSR04_Status.ok := by
        unfold timeUsToCm_
        rw [if_pos (by omega)]
      have hstat : (pollingMeasure s1 tstart echo).status = HCSR04_Status.ok := by
        rw [hm]
        exact hsok
      rw [hstat]
      refine ⟨⟨fun hco => absurd hco (by decide), fun hforall => ?_⟩,
        ⟨fun hco => absurd hco (by decide), fun hex => ?_⟩⟩
      · have h := hforall tr (by omega) htr2
        rw [htrw] at h
        exact absurd h (by decide)
      · obtain ⟨tr2, hb1, hb2, hb3, hbmin, hbtail⟩ := hex
        have htreq : tr2 = tr := by
          rcases Nat.lt_trichotomy tr2 tr with hlt2 | heqq | hgt
          · have h := htrmin tr2 (by omega) hlt2
            exact absurd hb3 h
          · exact heqq
          · have h := hbmin tr (by omega) hgt
            rw [htrw] at h
            exact absurd h (by decide)
        subst htreq
        have h := hbtail tf (by omega) htf2
        rw [htfw] at h
        exact absurd h (by decide)

/- ============================ Claim theorems =========================== -/

/-- Claim C1 (counterexample): with a freshly constructed device and the
clock still at 0, the cycle guard denies (elapsed 0 is below the 60000
minimum), yet HCSR04_Polling::read returns errBadState, not errBusy as the
claim states: the initial status value errBadState is returned unchanged
when canStartShot_ is not ok. -/
theorem polling_guard_denied_cex :
    canStartShot_ pollEx 0 = HCSR04_Status.errBusy ∧
    (pollingRead pollEx 0 0 (fun _ => false)).status ≠ HCSR04_Status.errBusy ∧
    (pollingRead pollEx 0 0 (fun _ => false)).status = HCSR04_Status.errBadState := by
  decide

/-- Claim C1 (amended): whenever HCSR04_Polling::read is invoked before the
minimum cycle interval has elapsed since the last shot start, it returns
the Bad-state status (not Busy), does not drive the trigger line, writes no
output, and leaves all data members, including the last-shot timestamp,
unchanged. -/
theorem polling_guard_denied_bad_state (s : IHCSR04_State) (nowE tstart : Nat)
    (echo : Nat → Bool) (h : canStartShot_ s nowE ≠ HCSR04_Status.ok) :
    pollingRead s nowE tstart echo =
      ⟨HCSR04_Status.errBadState, s, none, false⟩ := by
  unfold pollingRead
  rw [if_neg h]

/-- Witness for the amended claim C1 at a concrete denied call. -/
theorem polling_guard_denied_bad_state_witness :
    pollingRead pollEx 0 0 (fun _ => false) =
      ⟨HCSR04_Status.errBadState, pollEx, none, false⟩ :=
  polling_guard_denied_bad_state pollEx 0 0 (fun _ => false) (by decide)

/-- Claim C2 (counterexample): the IHCSR04 constructor stores its arguments
without validation, so constructing with trig_pin = echo_pin = 5 yields a
state in which the two pins are equal: the invariant does not hold in every
freshly constructed state. -/
theorem ctor_allows_equal_pins_cex :
    (IHCSR04_init 5 5 HCSR04_DEFAULT_TIMEOUT_US HCSR04_CM_PER_US
        HCSR04_DEFAULT_MIN_CYCLE_US).m_trig_pin =
      (IHCSR04_init 5 5 HCSR04_DEFAULT_TIMEOUT_US HCSR04_CM_PER_US
        HCSR04_DEFAULT_MIN_CYCLE_US).m_echo_pin := rfl

/-- Claim C2 (amended): from any state satisfying trig-pin ≠ echo-pin, the
invariant is preserved by every sequence of operations (setters, shot
marks, and reads of both engines); setTrigPin rejects a value equal to the
current echo pin and setEchoPin a value equal to the current trig pin, in
both cases returning errBadParam with the state unchanged. The constructor
itself does not validate, so the invariant holds for all reachable states
only when the initially constructed state already satisfies it. -/
theorem pin_invariant_preserved :
    (∀ s s' : IHCSR04_State, s.m_trig_pin ≠ s.m_echo_pin →
      Relation.ReflTransGen Step s s' → s'.m_trig_pin ≠ s'.m_echo_pin) ∧
    (∀ (s : IHCSR04_State) (p : Nat), p = s.m_echo_pin →
      setTrigPin s p = (HCSR04_Status.errBadParam, s)) ∧
    (∀ (s : IHCSR04_State) (p : Nat), p = s.m_trig_pin →
      setEchoPin s p = (HCSR04_Status.errBadParam, s)) := by
  refine ⟨?_, ?_, ?_⟩
  · intro s s' h hr
    induction hr with
    | refl => exact h
    | tail hab hbc ih => exact step_preserves_pins _ _ ih hbc
  · intro s p hp
    unfold setTrigPin
    rw [if_neg (fun hn => hn hp)]
  · intro s p hp
    unfold setEchoPin
    rw [if_neg (fun hn => hn hp)]

/-- Witness for the amended claim C2 at concrete pins 9 and 8. -/
theorem pin_invariant_preserved_witness :
    (setTrigPin pollEx 7).2.m_trig_pin ≠ (setTrigPin pollEx 7).2.m_echo_pin ∧
    setTrigPin pollEx 8 = (HCSR04_Status.errBadParam, pollEx) ∧
    setEchoPin pollEx 9 = (HCSR04_Status.errBadParam, pollEx) :=
  ⟨pin_invariant_preserved.1 pollEx _ (by decide)
      (Relation.ReflTransGen.single (Step.setTrig pollEx 7)),
    pin_invariant_preserved.2.1 pollEx 8 (by decide),
    pin_invariant_preserved.2.2 pollEx 9 (by decide)⟩

/-- Claim C3 (counterexample): the edge callback may legitimately record the
rise and the fall at the same clock reading (the monotonic microsecond
clock can repeat a value and wraps); from the armed state, firing the ISR
with a high level and then a low level both at clock 5 populates both
timestamps with 5, and the next read returns errBadParam, not ok, because
the wrapped high time is zero. -/
theorem interrupt_harvest_ok_cex :
    intEx.s_rise_us ≠ 0 ∧ intEx.s_fall_us ≠ 0 ∧
    canStartShot_ intEx.base 0 ≠ HCSR04_Status.ok ∧
    (interruptRead intEx 0).status = HCSR04_Status.errBadParam ∧
    (interruptRead intEx 0).status ≠ HCSR04_Status.ok := by
  decide

/-- Claim C3 (amended): an HCSR04_Interrupt::read call whose harvest step
finds both edge timestamps populated computes the distance and clears both
timestamps, returning ok when the wrapped high time fall - rise is nonzero
(errBadParam when it is zero); in either case the result is consumed, and
any immediately following read during which no new edges are captured
returns errNotReady, never a second ok for the same shot. -/
theorem interrupt_harvest_consumes_once (st : InterruptState) (now now2 : Nat)
    (h1 : (armShot st now).1.s_rise_us ≠ 0)
    (h2 : (armShot st now).1.s_fall_us ≠ 0)
    (h3 : ulSub (armShot st now).1.s_fall_us (armShot st now).1.s_rise_us ≠ 0) :
    (interruptRead st now).status = HCSR04_Status.ok ∧
    (interruptRead st now).out =
      some ((ulSub (armShot st now).1.s_fall_us (armShot st now).1.s_rise_us : ℚ) *
        (armShot st now).1.base.m_cm_per_us / 2) ∧
    (interruptRead st now).state.s_rise_us = 0 ∧
    (interruptRead st now).state.s_fall_us = 0 ∧
    (interruptRead (interruptRead st now).state now2).status =
      HCSR04_Status.errNotReady := by
  have heq : interruptRead st now =
      ⟨(timeUsToCm_ (armShot st now).1.base
          (ulSub (armShot st now).1.s_fall_us (armShot st now).1.s_rise_us)).1,
        { (armShot st now).1 with s_rise_us := 0, s_fall_us := 0 },
        (timeUsToCm_ (armShot st now).1.base
          (ulSub (armShot st now).1.s_fall_us (armShot st now).1.s_rise_us)).2,
        (armShot st now).2⟩ := by
    unfold interruptRead harvest
    rw [if_pos ⟨h1, h2⟩]
  have hcm : timeUsToCm_ (armShot st now).1.base
      (ulSub (armShot st now).1.s_fall_us (armShot st now).1.s_rise_us) =
      (HCSR04_Status.ok,
        some ((ulSub (armShot st now).1.s_fall_us (armShot st now).1.s_rise_us : ℚ) *
          (armShot st now).1.base.m_cm_per_us / 2)) := by
    unfold timeUsToCm_
    rw [if_pos h3, mul_one_div]
  rw [heq]
  refine ⟨?_, ?_, rfl, rfl, ?_⟩
  · show (timeUsToCm_ _ _).1 = HCSR04_Status.ok
    rw [hcm]
  · show (timeUsToCm_ _ _).2 = _
    rw [hcm]
  · exact interruptRead_notReady_of_no_capture _ now2 rfl

/-- Witness for the amended claim C3: rise 5 and fall 105 captured, guard
denied at clock 0; the first read harvests ok, the second is not ready. -/
theorem interrupt_harvest_consumes_once_witness :
    (interruptRead intEx5 0).status = HCSR04_Status.ok ∧
    (interruptRead (interruptRead intEx5 0).state 3).status =
      HCSR04_Status.errNotReady := by
  have h := interrupt_harvest_consumes_once intEx5 0 3 (by decide) (by decide) (by decide)
  exact ⟨h.1, h.2.2.2.2⟩

/-- Claim C4: canStartShot_ grants exactly when the wraparound-safe mod 2^32
difference between the clock and the last-shot timestamp reaches the
minimum cycle; otherwise it reports errBusy; at the very clock value
recorded by markShotStart_ it reports errBusy for any nonzero minimum; and
the comparison is correct across a clock wraparound: with the last-shot
timestamp anywhere below 2^32 and the clock advanced by d < 2^32 modulo
2^32 (in particular past zero), the guard grants exactly when d reaches the
minimum. -/
theorem canStartShot_wraparound_spec :
    (∀ (s : IHCSR04_State) (now : Nat),
      (canStartShot_ s now = HCSR04_Status.ok ↔
        s.m_min_cycle_us ≤ ulSub now s.m_last_shot_us) ∧
      (canStartShot_ s now = HCSR04_Status.ok ∨
        canStartShot_ s now = HCSR04_Status.errBusy)) ∧
    (∀ (s : IHCSR04_State) (now : Nat), now < UL_MOD → s.m_min_cycle_us ≠ 0 →
      canStartShot_ (markShotStart_ s now) now = HCSR04_Status.errBusy) ∧
    (∀ (s : IHCSR04_State) (last d : Nat), last < UL_MOD → d < UL_MOD →
      (canStartShot_ { s with m_last_shot_us := last } ((last + d) % UL_MOD) =
          HCSR04_Status.ok ↔ s.m_min_cycle_us ≤ d)) := by
  refine ⟨?_, ?_, ?_⟩
  · intro s now
    unfold canStartShot_
    constructor
    · split
      next hle => simp [hle]
      next hle => simp [hle]
    · split
      · left; rfl
      · right; rfl
  · intro s now hnow hmin
    unfold canStartShot_ markShotStart_
    simp only
    rw [ulSub_self now hnow]
    rw [if_neg (by omega)]
  · intro s last d h1 h2
    unfold canStartShot_
    simp only
    rw [ulSub_add last d h1 h2]
    split
    next hle => simp [hle]
    next hle => simp [hle]

/-- Witness for claim C4: immediately after a mark at clock 500 the guard
denies; with the last shot 100 ticks before wraparound and the clock 50
ticks past zero (elapsed 150), the guard grants exactly when the minimum
cycle (60000 here, so it does not) is at most 150. -/
theorem canStartShot_wraparound_spec_witness :
    canStartShot_ (markShotStart_ pollEx 500) 500 = HCSR04_Status.errBusy ∧
    (canStartShot_ { pollEx with m_last_shot_us := UL_MOD - 100 }
        ((UL_MOD - 100 + 150) % UL_MOD) = HCSR04_Status.ok ↔
      pollEx.m_min_cycle_us ≤ 150) :=
  ⟨canStartShot_wraparound_spec.2.1 pollEx 500 (by decide) (by decide),
    canStartShot_wraparound_spec.2.2 pollEx (UL_MOD - 100) 150 (by decide) (by decide)⟩

/-- Claim C6: timeUsToCm_ is a pure deterministic function: every strictly
positive high time yields ok and the output high_time * speed / 2; a zero
high time yields errBadParam and no output. -/
theorem timeUsToCm_pure_spec :
    ∀ (s : IHCSR04_State) (echo_high_us : Nat),
      (echo_high_us ≠ 0 →
        timeUsToCm_ s echo_high_us =
          (HCSR04_Status.ok, some ((echo_high_us : ℚ) * s.m_cm_per_us / 2))) ∧
      timeUsToCm_ s 0 = (HCSR04_Status.errBadParam, none) := by
  intro s u
  constructor
  · intro hu
    unfold timeUsToCm_
    rw [if_pos hu, mul_one_div]
  · rfl

/-- Witness for claim C6 at high time 600. -/
theorem timeUsToCm_pure_spec_witness :
    timeUsToCm_ pollEx 600 =
      (HCSR04_Status.ok, some ((600 : ℚ) * pollEx.m_cm_per_us / 2)) :=
  (timeUsToCm_pure_spec pollEx 600).1 (by decide)

/-- Claim C7 (counterexample): with the guard denying and both timestamps
populated with the same value 7, the read does not fire the trigger and
proceeds to harvest, but it returns errBadParam, not ok, because the
wrapped high time is zero: the claim as stated fails on a degenerate
capture. -/
theorem interrupt_busy_still_harvests_cex :
    canStartShot_ intEx7.base 0 ≠ HCSR04_Status.ok ∧
    intEx7.s_rise_us ≠ 0 ∧ intEx7.s_fall_us ≠ 0 ∧
    (interruptRead intEx7 0).trigFired = false ∧
    (interruptRead intEx7 0).status = HCSR04_Status.errBadParam ∧
    (interruptRead intEx7 0).status ≠ HCSR04_Status.ok := by
  decide

/-- Claim C7 (amended): when the cycle guard denies an
HCSR04_Interrupt::read call, no new shot is armed: the trigger is not
driven, the base state including the last-shot timestamp is unchanged, and
the edge-capture state is not reset before harvesting; the call still
harvests a pending completed capture, returning ok with its computed
distance when the wrapped high time is nonzero (errBadParam when it is
zero). -/
theorem interrupt_busy_still_harvests (st : InterruptState) (now : Nat)
    (hg : canStartShot_ st.base now ≠ HCSR04_Status.ok)
    (h1 : st.s_rise_us ≠ 0) (h2 : st.s_fall_us ≠ 0)
    (h3 : ulSub st.s_fall_us st.s_rise_us ≠ 0) :
    (interruptRead st now).trigFired = false ∧
    (interruptRead st now).state.base = st.base ∧
    (interruptRead st now).state.s_waiting_rise = st.s_waiting_rise ∧
    (interruptRead st now).status = HCSR04_Status.ok ∧
    (interruptRead st now).out =
      some ((ulSub st.s_fall_us st.s_rise_us : ℚ) * st.base.m_cm_per_us / 2) := by
  have harm : armShot st now = (st, false) := by
    unfold armShot
    rw [if_neg hg]
  have heq : interruptRead st now =
      ⟨(timeUsToCm_ st.base (ulSub st.s_fall_us st.s_rise_us)).1,
        { st with s_rise_us := 0, s_fall_us := 0 },
        (timeUsToCm_ st.base (ulSub st.s_fall_us st.s_rise_us)).2,
        false⟩ := by
    unfold interruptRead harvest
    rw [harm]
    rw [if_pos ⟨h1, h2⟩]
  have hcm : timeUsToCm_ st.base (ulSub st.s_fall_us st.s_rise_us) =
      (HCSR04_Status.ok,
        some ((ulSub st.s_fall_us st.s_rise_us : ℚ) * st.base.m_cm_per_us / 2)) := by
    unfold timeUsToCm_
    rw [if_pos h3, mul_one_div]
  rw [heq]
  refine ⟨rfl, rfl, rfl, ?_, ?_⟩
  · show (timeUsToCm_ _ _).1 = HCSR04_Status.ok
    rw [hcm]
  · show (timeUsToCm_ _ _).2 = _
    rw [hcm]

/-- Witness for the amended claim C7: guard denied at clock 0, capture rise
11 and fall 211 pending: no trigger fired and the harvest returns ok. -/
theorem interrupt_busy_still_harvests_witness :
    (interruptRead intExW 0).trigFired = false ∧
    (interruptRead intExW 0).status = HCSR04_Status.ok := by
  have h := interrupt_busy_still_harvests intExW 0 (by decide) (by decide)
    (by decide) (by decide)
  exact ⟨h.1, h.2.2.2.1⟩

/-- Claim C5: both busy-wait phases of HCSR04_Polling::read share one
absolute timeout window anchored at the reference tstart captured when the
trigger falls, and the window is not restarted after the rising edge: with
the cycle guard granting, the call returns errTimeoutEchoStart exactly when
no sample inside the window (tstart, tstart + m_timeout_us) observes a high
echo level, and errTimeoutEchoEnd exactly when a first high sample exists
at some tr inside the window while every sample of the fall-wait loop,
which resumes two clock ticks after tr (one tick is consumed by the loop
exit and one by the fresh micros() call between the loops), up to the end
of the same window, still observes a high level. -/
theorem polling_shared_timeout_window (s : IHCSR04_State) (nowE tstart : Nat)
    (echo : Nat → Bool) (hok : canStartShot_ s nowE = HCSR04_Status.ok) :
    ((pollingRead s nowE tstart echo).status = HCSR04_Status.errTimeoutEchoStart ↔
      ∀ t, tstart < t → t < tstart + s.m_timeout_us → echo t = false) ∧
    ((pollingRead s nowE tstart echo).status = HCSR04_Status.errTimeoutEchoEnd ↔
      ∃ tr, tstart < tr ∧ tr < tstart + s.m_timeout_us ∧ echo tr = true ∧
        (∀ u, tstart < u → u < tr → echo u = false) ∧
        (∀ t, tr + 2 ≤ t → t < tstart + s.m_timeout_us → echo t = true)) := by
  have hpr : pollingRead s nowE tstart echo =
      pollingMeasure (markShotStart_ s nowE) tstart echo := by
    unfold pollingRead
    rw [if_pos hok]
  rw [hpr]
  exact pollingMeasure_window (markShotStart_ s nowE) tstart echo

/-- Witness for claim C5: with the guard granting at clock 60000 and an
echo line that never rises, the call reports errTimeoutEchoStart. -/
theorem polling_shared_timeout_window_witness :
    (pollingRead pollEx 60000 100 (fun _ => false)).status =
      HCSR04_Status.errTimeoutEchoStart := by
  have h := polling_shared_timeout_window pollEx 60000 100 (fun _ => false) (by decide)
  exact h.1.mpr (fun t ht1 ht2 => rfl)

/-- Claim C8: each numeric setter commits the candidate and returns ok
exactly when its validity predicate holds and otherwise returns errBadParam
with the stored field unchanged: setTimeoutUs succeeds exactly for values
at least HCSR04_TRIG_PULSE_US + 100 and the boundary behaves as claimed;
setMinCycleUs succeeds exactly for nonzero values; setSoundSpeed succeeds
exactly on the open interval between 0.02 and 0.06, both endpoints
failing. -/
theorem setters_validation_spec :
    ∀ (s : IHCSR04_State) (v m : Nat) (q : ℚ),
      ((setTimeoutUs s v).1 = HCSR04_Status.ok ↔ HCSR04_TRIG_PULSE_US + 100 ≤ v) ∧
      ((setTimeoutUs s v).1 = HCSR04_Status.ok →
        (setTimeoutUs s v).2 = { s with m_timeout_us := v }) ∧
      ((setTimeoutUs s v).1 ≠ HCSR04_Status.ok →
        (setTimeoutUs s v).1 = HCSR04_Status.errBadParam ∧ (setTimeoutUs s v).2 = s) ∧
      ((setTimeoutUs s (HCSR04_TRIG_PULSE_US + 100)).1 = HCSR04_Status.ok) ∧
      ((setTimeoutUs s (HCSR04_TRIG_PULSE_US + 99)).1 = HCSR04_Status.errBadParam) ∧
      ((setMinCycleUs s m).1 = HCSR04_Status.ok ↔ m ≠ 0) ∧
      ((setMinCycleUs s m).1 = HCSR04_Status.ok →
        (setMinCycleUs s m).2 = { s with m_min_cycle_us := m }) ∧
      ((setMinCycleUs s m).1 ≠ HCSR04_Status.ok →
        (setMinCycleUs s m).1 = HCSR04_Status.errBadParam ∧ (setMinCycleUs s m).2 = s) ∧
      ((setSoundSpeed s q).1 = HCSR04_Status.ok ↔ 2 / 100 < q ∧ q < 6 / 100) ∧
      ((setSoundSpeed s q).1 = HCSR04_Status.ok →
        (setSoundSpeed s q).2 = { s with m_cm_per_us := q }) ∧
      ((setSoundSpeed s q).1 ≠ HCSR04_Status.ok →
        (setSoundSpeed s q).1 = HCSR04_Status.errBadParam ∧ (setSoundSpeed s q).2 = s) ∧
      ((setSoundSpeed s (2 / 100)).1 = HCSR04_Status.errBadParam) ∧
      ((setSoundSpeed s (6 / 100)).1 = HCSR04_Status.errBadParam) := by
  intro s v m q
  refine ⟨?_, ?_, ?_, ?_, ?_, ?_, ?_, ?_, ?_, ?_, ?_, ?_, ?_⟩
  · unfold setTimeoutUs
    split
    next hle => simp [hle]
    next hle => simp [hle]
  · unfold setTimeoutUs
    split
    · intro _; rfl
    · intro hco; exact absurd hco (by simp)
  · unfold setTimeoutUs
    split
    · intro hn; exact absurd rfl hn
    · intro _; exact ⟨rfl, rfl⟩
  · unfold setTimeoutUs
    rw [if_pos (Nat.le_refl _)]
  · unfold setTimeoutUs
    rw [if_neg (by omega)]
  · unfold setMinCycleUs
    split
    next hm => simp [hm]
    next hm => simp [hm]
  · unfold setMinCycleUs
    split
    · intro _; rfl
    · intro hco; exact absurd hco (by simp)
  · unfold setMinCycleUs
    split
    · intro hn; exact absurd rfl hn
    · intro _; exact ⟨rfl, rfl⟩
  · unfold setSoundSpeed
    split
    next hq => simp [hq]
    next hq => simp [hq]
  · unfold setSoundSpeed
    split
    · intro _; rfl
    · intro hco; exact absurd hco (by simp)
  · unfold setSoundSpeed
    split
    · intro hn; exact absurd rfl hn
    · intro _; exact ⟨rfl, rfl⟩
  · unfold setSoundSpeed
    rw [if_neg (by norm_num)]
  · unfold setSoundSpeed
    rw [if_neg (by norm_num)]

/-- Witness for claim C8: committing timeout 200 and rejecting speed 0.01
on the example state. -/
theorem setters_validation_spec_witness :
    (setTimeoutUs pollEx 200).2 = { pollEx with m_timeout_us := 200 } ∧
    (setSoundSpeed pollEx (1 / 100)).1 = HCSR04_Status.errBadParam ∧
    (setSoundSpeed pollEx (1 / 100)).2 = pollEx := by
  obtain ⟨c1, c2, c3, c4, c5, c6, c7, c8, c9, c10, c11, c12, c13⟩ :=
    setters_validation_spec pollEx 200 5 (1 / 100)
  refine ⟨c2 (c1.mpr (by decide)), ?_, ?_⟩
  · exact (c11 (fun hco => by rw [c9] at hco; norm_num at hco)).1
  · exact (c11 (fun hco => by rw [c9] at hco; norm_num at hco)).2

/-- Claim C9: in both engines, the out_cm reference is written exactly on
the calls that return ok; every call returning any other status leaves it
untouched. -/
theorem read_writes_output_iff_ok :
    (∀ (s : IHCSR04_State) (nowE tstart : Nat) (echo : Nat → Bool),
      ((pollingRead s nowE tstart echo).out ≠ none ↔
        (pollingRead s nowE tstart echo).status = HCSR04_Status.ok)) ∧
    (∀ (st : InterruptState) (now : Nat),
      ((interruptRead st now).out ≠ none ↔
        (interruptRead st now).status = HCSR04_Status.ok)) := by
  constructor
  · intro s nowE tstart echo
    simp only [pollingRead, pollingMeasure]
    split
    · split
      · simp
      · split
        · simp
        · exact timeUsToCm_out_iff _ _
    · simp
  · intro st now
    unfold interruptRead harvest
    split
    · exact timeUsToCm_out_iff _ _
    · simp

/-- Claim C10: HCSR04_Interrupt::read has no timeout mechanism: its status
is always one of ok, errNotReady and errBadParam, and in particular it
never returns errTimeoutEchoStart or errTimeoutEchoEnd in any state. -/
theorem interrupt_read_never_timeout :
    ∀ (st : InterruptState) (now : Nat),
      ((interruptRead st now).status = HCSR04_Status.ok ∨
        (interruptRead st now).status = HCSR04_Status.errNotReady ∨
        (interruptRead st now).status = HCSR04_Status.errBadParam) ∧
      (interruptRead st now).status ≠ HCSR04_Status.errTimeoutEchoStart ∧
      (interruptRead st now).status ≠ HCSR04_Status.errTimeoutEchoEnd := by
  intro st now
  have hmem :
      (interruptRead st now).status = HCSR04_Status.ok ∨
      (interruptRead st now).status = HCSR04_Status.errNotReady ∨
      (interruptRead st now).status = HCSR04_Status.errBadParam := by
    unfold interruptRead harvest
    split
    · rcases timeUsToCm_status_cases (armShot st now).1.base
        (ulSub (armShot st now).1.s_fall_us (armShot st now).1.s_rise_us) with h | h
      · exact Or.inl h
      · exact Or.inr (Or.inr h)
    · exact Or.inr (Or.inl rfl)
  refine ⟨hmem, ?_, ?_⟩ <;> rcases hmem with h | h | h <;> rw [h] <;> simp

end HCSR04
